import Mathlib

/-!
Verification of the Vulkan render-surface manager
(`internal/renderers/skia/vulkan_surface.rs`) and the single-handler
signal utility (`sixtyfps_runtime/corelib/signals.rs`) of the
the-argus/slint repository, as a shallow embedding in Lean 4.

Native GPU operations (image allocation, image-view creation, swapchain
acquire, present/flush, Skia surface wrapping) are modelled as oracles
supplied in an environment record; everything else follows the Rust
source line by line.
-/

namespace VulkanSurface

/-- `i_slint_core::api::PhysicalSize`: physical pixel dimensions of the window. -/
structure PhysicalWindowSize where
  width : Nat
  height : Nat
deriving DecidableEq, Repr

/-- `vulkano::format::Format`, restricted to the constructors this module touches. -/
inductive Format where
  | B8G8R8A8_UNORM
  | R8G8B8A8_UNORM
deriving DecidableEq, Repr

/-- The structured platform errors this module can produce
(`i_slint_core::platform::PlatformError` is built from format strings in the
source; we keep one constructor per distinct message). -/
inductive PlatformError where
  | imageAllocationFailed
  | imageViewCreationFailed
  | deviceCreationFailed
  | noQueueAvailable
  | graphicsContextCreationFailed
  | deviceEnumerationFailed
  | noSuitableDevice
  | acquireFailed
  | surfaceCreationFailed
  | presentFailed
deriving DecidableEq, Repr

/-- A Vulkan attachment image: dimensions, format, and the raw native handle
(we use the allocation counter as the handle, so every allocation is fresh). -/
structure AttachmentImage where
  width : Nat
  height : Nat
  format : Format
  handle : Nat
deriving DecidableEq, Repr

/-- `ImageView::new_default(image)`: a default view wrapping one image. -/
structure ImageViewM where
  image : AttachmentImage
deriving DecidableEq, Repr

/-- Oracle deciding whether the n-th image allocation and the n-th
image-view creation succeed (the native allocator may fail at any step). -/
structure AllocEnv where
  imageOk : Nat → Bool
  viewOk : Nat → Bool

-- `const FRAMES_IN_FLIGHT: u8 = 3;` — must be nonzero
def FRAMES_IN_FLIGHT : Nat := 3

/-- The image the allocator returns for a request of the given size, with the
fresh handle `ctr`; the format is always `B8G8R8A8_UNORM` at the call site. -/
def mkImage (size : PhysicalWindowSize) (ctr : Nat) : AttachmentImage :=
  { width := size.width, height := size.height,
    format := Format.B8G8R8A8_UNORM, handle := ctr }

/-- `AttachmentImage::new(allocator, [w, h], Format::B8G8R8A8_UNORM)`. -/
def attachmentImageNew (env : AllocEnv) (ctr : Nat) (size : PhysicalWindowSize) :
    Option AttachmentImage :=
  if env.imageOk ctr then some (mkImage size ctr) else none

/-- `ImageView::new_default(image.clone())`. -/
def imageViewNewDefault (env : AllocEnv) (ctr : Nat) (image : AttachmentImage) :
    Option ImageViewM :=
  if env.viewOk ctr then some { image := image } else none

/-- The observable outcome of `recreate_size_dependent_resources`: the final
contents of the caller-supplied output vectors (which the Rust function
mutates through `&mut` even when it returns `Err`), the advanced allocation
counter, and the error if the loop stopped early. -/
structure RecreateOut where
  images : List AttachmentImage
  image_views : List ImageViewM
  ctr : Nat
  err : Option PlatformError
deriving DecidableEq, Repr

/-- The `for _ in 0..FRAMES_IN_FLIGHT` loop of
`recreate_size_dependent_resources`: each iteration creates one image and its
default view, pushing both into the output vectors; the `?` operator returns
on the first failure, leaving the vectors as already pushed. -/
def recreateLoop (env : AllocEnv) (size : PhysicalWindowSize) :
    Nat → Nat → List AttachmentImage → List ImageViewM → RecreateOut
  | 0, ctr, outImages, outViews =>
      { images := outImages, image_views := outViews, ctr := ctr, err := none }
  | fuel + 1, ctr, outImages, outViews =>
      match attachmentImageNew env ctr size with
      | none =>
          { images := outImages, image_views := outViews, ctr := ctr,
            err := some PlatformError.imageAllocationFailed }
      | some image =>
          match imageViewNewDefault env ctr image with
          | none =>
              { images := outImages, image_views := outViews, ctr := ctr + 1,
                err := some PlatformError.imageViewCreationFailed }
          | some image_view =>
              recreateLoop env size fuel (ctr + 1)
                (outImages ++ [image]) (outViews ++ [image_view])

/-- `VulkanSurface::recreate_size_dependent_resources(size, allocator,
output_images, output_image_views)`. -/
def recreate_size_dependent_resources (env : AllocEnv) (size : PhysicalWindowSize)
    (ctr : Nat) (outImages : List AttachmentImage) (outViews : List ImageViewM) :
    RecreateOut :=
  recreateLoop env size FRAMES_IN_FLIGHT ctr outImages outViews

/-- The list of images a fully successful run of the allocation loop appends:
`fuel` images at the given size, format `B8G8R8A8_UNORM`, with consecutive
fresh handles starting at `ctr`. -/
def freshImages (size : PhysicalWindowSize) : Nat → Nat → List AttachmentImage
  | _, 0 => []
  | ctr, fuel + 1 => mkImage size ctr :: freshImages size (ctr + 1) fuel

theorem recreateLoop_ok (env : AllocEnv) (size : PhysicalWindowSize) :
    ∀ (fuel ctr : Nat) (outImages : List AttachmentImage) (outViews : List ImageViewM),
      (recreateLoop env size fuel ctr outImages outViews).err = none →
      (recreateLoop env size fuel ctr outImages outViews).images
          = outImages ++ freshImages size ctr fuel ∧
      (recreateLoop env size fuel ctr outImages outViews).image_views
          = outViews ++ (freshImages size ctr fuel).map (fun i => { image := i }) ∧
      (recreateLoop env size fuel ctr outImages outViews).ctr = ctr + fuel := by
  intro fuel
  induction fuel with
  | zero =>
      intro ctr outImages outViews _
      simp [recreateLoop, freshImages]
  | succ n ih =>
      intro ctr outImages outViews h
      by_cases hi : env.imageOk ctr
      · by_cases hv : env.viewOk ctr
        · have hrec := ih (ctr + 1)
            (outImages ++ [mkImage size ctr])
            (outViews ++ [{ image := mkImage size ctr }])
          simp only [recreateLoop, attachmentImageNew, imageViewNewDefault, hi, hv,
            if_true] at h ⊢
          obtain ⟨h1, h2, h3⟩ := hrec h
          refine ⟨?_, ?_, ?_⟩
          · rw [h1]; simp [freshImages]
          · rw [h2]; simp [freshImages]
          · rw [h3]; omega
        · simp [recreateLoop, attachmentImageNew, imageViewNewDefault, hi, hv] at h
      · simp [recreateLoop, attachmentImageNew, hi] at h

theorem freshImages_mem (size : PhysicalWindowSize) :
    ∀ (fuel ctr : Nat) (img : AttachmentImage), img ∈ freshImages size ctr fuel →
      img.width = size.width ∧ img.height = size.height ∧
      img.format = Format.B8G8R8A8_UNORM := by
  intro fuel
  induction fuel with
  | zero => intro ctr img h; simp [freshImages] at h
  | succ n ih =>
      intro ctr img h
      simp only [freshImages, List.mem_cons] at h
      rcases h with h | h
      · subst h; exact ⟨rfl, rfl, rfl⟩
      · exact ih (ctr + 1) img h

theorem freshImages_length (size : PhysicalWindowSize) :
    ∀ (fuel ctr : Nat), (freshImages size ctr fuel).length = fuel := by
  intro fuel
  induction fuel with
  | zero => intro ctr; simp [freshImages]
  | succ n ih => intro ctr; simp [freshImages, ih]

theorem freshImages_handles (size : PhysicalWindowSize) (ctr : Nat) :
    (freshImages size ctr 3).map AttachmentImage.handle = [ctr, ctr + 1, ctr + 2] := by
  simp [freshImages, mkImage]

/-- The GPU futures stored in `previous_frame_end`: either the no-op
`sync::now(device)` future or the fence-and-flush future produced by
`join(acquire_future).then_swapchain_present(queue, info)` for a given
swapchain image index. -/
inductive GpuFutureM where
  | now
  | presentFence (prev : GpuFutureM) (imageIndex : Nat)
deriving DecidableEq, Repr

/-- `VulkanError`, restricted to the discrimination the source performs:
`OutOfDate` is matched explicitly, every other error is handled uniformly. -/
inductive VkError where
  | outOfDate
  | other
deriving DecidableEq, Repr

/-- Result of `vulkano::swapchain::acquire_next_image(swapchain, None)`
after `map_err(Validated::unwrap)`. -/
inductive AcquireResult where
  | ok (imageIndex : Nat) (suboptimal : Bool)
  | error (e : VkError)
deriving DecidableEq, Repr

/-- The interior-mutable state of a `VulkanSurface` (its `Cell`/`RefCell`
fields), plus the allocation counter standing for the memory allocator. -/
structure State where
  resize_event : Option PhysicalWindowSize
  recreate_swapchain : Bool
  previous_frame_end : Option GpuFutureM
  frame_index : Option Nat
  images : List AttachmentImage
  image_views : List ImageViewM
  alloc_ctr : Nat
deriving DecidableEq, Repr

/-- Per-call oracle for the native operations `render` performs: the
allocator, the acquire result, whether Skia accepts the wrapped render
target, whether a pre-present callback is registered, and the outcome of
`then_signal_fence_and_flush` (`none` = success). -/
structure RenderEnv where
  alloc : AllocEnv
  acquire : AcquireResult
  surfaceOk : Bool
  hasPrePresent : Bool
  present : Option VkError

/-- How one `render` call ends: `Ok(())`, `Err(e)`, or a Rust panic
(out-of-bounds indexing, a failed `debug_assert`, `unwrap` on `None`). -/
inductive RenderResult where
  | ok
  | err (e : PlatformError)
  | panic (msg : String)
deriving DecidableEq, Repr

/-- Observable actions of one `render` call: the offscreen frame index used
to pick the image that is drawn, the handle of the drawn image, the
swapchain image index queued for present, and whether the pre-present
callback ran. -/
structure RenderTrace where
  usedFrameIndex : Option Nat
  drawnImageHandle : Option Nat
  presentedImageIndex : Option Nat
  prePresentCalled : Bool
deriving DecidableEq, Repr

def emptyTrace : RenderTrace :=
  { usedFrameIndex := none, drawnImageHandle := none,
    presentedImageIndex := none, prePresentCalled := false }

/-- Tail of `render` from `self.previous_frame_end.borrow_mut().take().unwrap()`
on: join with the acquire future, queue the present, fence and flush, and
store the next `previous_frame_end` according to the outcome. -/
def renderPresent (env : RenderEnv) (s : State) (imageIndex : Nat)
    (tr : RenderTrace) : RenderResult × State × RenderTrace :=
  match s.previous_frame_end with
  | none => (RenderResult.panic "called Option::unwrap on a None value", s, tr)
  | some prev =>
      let tr := { tr with presentedImageIndex := some imageIndex }
      match env.present with
      | none =>
          let stored := some (GpuFutureM.presentFence prev imageIndex)
          (RenderResult.ok, { s with previous_frame_end := stored }, tr)
      | some VkError.outOfDate =>
          (RenderResult.ok,
           { s with recreate_swapchain := true,
                    previous_frame_end := some GpuFutureM.now }, tr)
      | some VkError.other =>
          (RenderResult.err PlatformError.presentFailed,
           { s with previous_frame_end := some GpuFutureM.now }, tr)

/-- Middle of `render`: index the image and view vectors at `frame_index`
(a Rust `Vec` index panics when out of bounds), check the
`debug_assert_eq!` on the format, wrap the render target for Skia, run the
draw callback, submit synchronously, run the pre-present callback. -/
def renderDraw (env : RenderEnv) (s : State) (frameIndex imageIndex : Nat) :
    RenderResult × State × RenderTrace :=
  match s.images[frameIndex]? with
  | none => (RenderResult.panic "index out of bounds", s, emptyTrace)
  | some _ =>
      match s.image_views[frameIndex]? with
      | none => (RenderResult.panic "index out of bounds", s, emptyTrace)
      | some image_view =>
          if image_view.image.format ≠ Format.B8G8R8A8_UNORM then
            (RenderResult.panic "debug assertion failed", s, emptyTrace)
          else if env.surfaceOk = false then
            (RenderResult.err PlatformError.surfaceCreationFailed, s, emptyTrace)
          else
            let tr : RenderTrace :=
              { usedFrameIndex := some frameIndex,
                drawnImageHandle := some image_view.image.handle,
                presentedImageIndex := none,
                prePresentCalled := env.hasPrePresent }
            renderPresent env s imageIndex tr

/-- `render` after the resize handling: acquire the next swapchain image.
`Err(OutOfDate)` sets `recreate_swapchain` and returns `Ok(())` at once;
any other acquire error is returned to the caller; a suboptimal acquire
sets `recreate_swapchain` and continues with the acquired image. -/
def renderAcquire (env : RenderEnv) (s : State) (frameIndex : Nat) :
    RenderResult × State × RenderTrace :=
  match env.acquire with
  | AcquireResult.error VkError.outOfDate =>
      (RenderResult.ok, { s with recreate_swapchain := true }, emptyTrace)
  | AcquireResult.error VkError.other =>
      (RenderResult.err PlatformError.acquireFailed, s, emptyTrace)
  | AcquireResult.ok imageIndex suboptimal =>
      let s := if suboptimal then { s with recreate_swapchain := true } else s
      renderDraw env s frameIndex imageIndex

/-- `VulkanSurface::render`.  `self.frame_index.clone().take()` takes from a
clone of the `RefCell`, so the stored cell is read but never cleared, and no
statement in `render` writes `self.frame_index`; the pending resize is taken
from its `Cell` (clearing it) and, when present, the resources are recreated
into fresh vectors that replace the stored ones only when recreation fully
succeeds. -/
def render (env : RenderEnv) (s : State) : RenderResult × State × RenderTrace :=
  let frameIndex := s.frame_index.getD 0
  let resize := s.resize_event
  let s := { s with resize_event := none }
  match resize with
  | some newSize =>
      let out := recreate_size_dependent_resources env.alloc newSize s.alloc_ctr [] []
      match out.err with
      | some e => (RenderResult.err e, { s with alloc_ctr := out.ctr }, emptyTrace)
      | none =>
          renderAcquire env
            { s with images := out.images, image_views := out.image_views,
                     alloc_ctr := out.ctr } frameIndex
  | none => renderAcquire env s frameIndex

/-- `VulkanSurface::resize_event`: overwrite the single-slot pending resize
cell with the latest requested size (always returns `Ok(())`). -/
def resize_event (s : State) (size : PhysicalWindowSize) : State :=
  { s with resize_event := some size }

/-- `VulkanSurface::from_resources`, restricted to the state-carrying fields:
allocate the initial resource set (failures abort construction), then build
the surface with the pending resize slot holding the construction size, no
frame index, and a fresh no-op `previous_frame_end`. -/
def from_resources (env : AllocEnv) (size : PhysicalWindowSize) :
    Except PlatformError State :=
  let out := recreate_size_dependent_resources env size 0 [] []
  match out.err with
  | some e => Except.error e
  | none =>
      Except.ok
        { resize_event := some size,
          recreate_swapchain := false,
          previous_frame_end := some GpuFutureM.now,
          frame_index := none,
          images := out.images,
          image_views := out.image_views,
          alloc_ctr := out.ctr }

/-- Result of an accessor (`Ok` value or Rust panic). -/
inductive AccessorResult (α : Type) where
  | ok (a : α)
  | panic (msg : String)
deriving DecidableEq, Repr

/-- `VulkanSurface::current_vulkan_frame_index`:
`self.frame_index.clone().take()` reads the cell and panics on `None`. -/
def current_vulkan_frame_index (s : State) : AccessorResult Nat :=
  match s.frame_index with
  | some idx => AccessorResult.ok idx
  | none => AccessorResult.panic "Vulkan frame index requested before first render"

/-- `VulkanSurface::current_raw_offscreen_vulkan_image_handle`:
index the image vector at the current frame index and return the raw
native image handle. -/
def current_raw_offscreen_vulkan_image_handle (s : State) : AccessorResult Nat :=
  match current_vulkan_frame_index s with
  | AccessorResult.panic m => AccessorResult.panic m
  | AccessorResult.ok idx =>
      match s.images[idx]? with
      | none => AccessorResult.panic "index out of bounds"
      | some img => AccessorResult.ok img.handle

/-- `vulkano::device::physical::PhysicalDeviceType`; `unknown` stands for
any variant the `_ => 5` arm of the ranking would catch. -/
inductive PhysicalDeviceType where
  | DiscreteGpu
  | IntegratedGpu
  | VirtualGpu
  | Cpu
  | Other
  | unknown
deriving DecidableEq, Repr

/-- One queue family, reduced to the only property the source inspects:
whether `queue_flags` intersects `QueueFlags::GRAPHICS`. -/
structure QueueFamily where
  graphics : Bool
deriving DecidableEq, Repr

/-- A physical device as the selector sees it: its type, the device-level
extensions it supports (by name), and its queue families in order. -/
structure PhysicalDeviceM where
  deviceType : PhysicalDeviceType
  supportedExtensions : List String
  queueFamilies : List QueueFamily
deriving DecidableEq, Repr

/-- The ranking closure of `min_by_key`: prefer discrete GPUs, then
integrated, virtual, software (CPU), `Other`, then anything else. -/
def deviceRank : PhysicalDeviceType → Nat
  | PhysicalDeviceType.DiscreteGpu => 0
  | PhysicalDeviceType.IntegratedGpu => 1
  | PhysicalDeviceType.VirtualGpu => 2
  | PhysicalDeviceType.Cpu => 3
  | PhysicalDeviceType.Other => 4
  | PhysicalDeviceType.unknown => 5

/-- `p.queue_family_properties().iter().enumerate()
.position(|(_, q)| q.queue_flags.intersects(QueueFlags::GRAPHICS))`:
index of the first graphics-capable queue family. -/
def findGraphicsFamilyIndex : List QueueFamily → Option Nat
  | [] => none
  | q :: qs =>
      if q.graphics then some 0
      else (findGraphicsFamilyIndex qs).map (· + 1)

/-- `p.supported_extensions().contains(&device_extensions)`: every required
extension is among the device's supported ones. -/
def supportsExtensions (required : List String) (p : PhysicalDeviceM) : Bool :=
  required.all (fun e => p.supportedExtensions.contains e)

/-- The devices surviving the two filters, each paired with the index of its
first graphics-capable queue family (the `filter` + `filter_map` chain). -/
def survivors (required : List String) (devices : List PhysicalDeviceM) :
    List (PhysicalDeviceM × Nat) :=
  (devices.filter (supportsExtensions required)).filterMap
    (fun p => (findGraphicsFamilyIndex p.queueFamilies).map (fun i => (p, i)))

/-- One step of Rust's `Iterator::min_by_key` fold: the candidate replaces
the current minimum only when its key is strictly smaller, so the first
minimal element wins ties. -/
def minByRankStep (best y : PhysicalDeviceM × Nat) : PhysicalDeviceM × Nat :=
  if deviceRank y.1.deviceType < deviceRank best.1.deviceType then y else best

/-- `min_by_key(|(p, _)| rank(p.device_type))` over the survivor list. -/
def minByRank : List (PhysicalDeviceM × Nat) → Option (PhysicalDeviceM × Nat)
  | [] => none
  | x :: xs => some (xs.foldl minByRankStep x)

/-- The device-selection portion of `<VulkanSurface as Surface>::new`:
filter the enumerated devices, pick the minimum by device-class rank, or
fail with the no-suitable-device error. -/
def selectPhysicalDevice (required : List String) (devices : List PhysicalDeviceM) :
    Except PlatformError (PhysicalDeviceM × Nat) :=
  match minByRank (survivors required devices) with
  | some r => Except.ok r
  | none => Except.error PlatformError.noSuitableDevice

end VulkanSurface

namespace Signals

/-- `Signal<Arg>`: a single-slot `Cell` holding the optional handler.
`H` is the type of handler values (the boxed closures). -/
structure Signal (H : Type) where
  handler : Option H
deriving DecidableEq, Repr

/-- Outcome of `Signal::emit`: the signal's state afterwards together with
the list of handler invocations performed (handler, argument), or a panic
from the `assert!`. -/
inductive EmitResult (H A : Type) where
  | ok (s : Signal H) (calls : List (H × A))
  | panic (msg : String)
deriving DecidableEq, Repr

/-- `Signal::set_handler`: overwrite the slot with the new handler. -/
def set_handler {H : Type} (_s : Signal H) (f : H) : Signal H :=
  { handler := some f }

/-- `Signal::emit(a)`.  `action h a` describes the handler's re-entrant
effect on this same signal's slot during its invocation: `none` when the
handler does not call `set_handler` on it, `some f` when it installs `f`.
The code takes the handler (leaving the cell empty), invokes it, asserts
that the cell is still empty, and puts the original handler back. -/
def emit {H A : Type} (action : H → A → Option H) (s : Signal H) (a : A) :
    EmitResult H A :=
  match s.handler with
  | none => EmitResult.ok s []
  | some h =>
      match action h a with
      | some _ => EmitResult.panic "Signal Handler set while emitted"
      | none => EmitResult.ok { handler := some h } [(h, a)]

end Signals

namespace VulkanSurface

/-! Helper lemmas shared by the claim theorems. -/

theorem renderPresent_preserves (env : RenderEnv) (s : State) (i : Nat)
    (tr : RenderTrace) :
    ((renderPresent env s i tr).2.1).images = s.images ∧
    ((renderPresent env s i tr).2.1).image_views = s.image_views ∧
    ((renderPresent env s i tr).2.1).resize_event = s.resize_event := by
  unfold renderPresent
  rcases s.previous_frame_end with _ | prev
  · exact ⟨rfl, rfl, rfl⟩
  · rcases env.present with _ | e
    · exact ⟨rfl, rfl, rfl⟩
    · cases e <;> exact ⟨rfl, rfl, rfl⟩

theorem renderDraw_preserves (env : RenderEnv) (s : State) (fi ii : Nat) :
    ((renderDraw env s fi ii).2.1).images = s.images ∧
    ((renderDraw env s fi ii).2.1).image_views = s.image_views ∧
    ((renderDraw env s fi ii).2.1).resize_event = s.resize_event := by
  unfold renderDraw
  rcases s.images[fi]? with _ | img
  · exact ⟨rfl, rfl, rfl⟩
  · rcases s.image_views[fi]? with _ | v
    · exact ⟨rfl, rfl, rfl⟩
    · by_cases hfmt : v.image.format ≠ Format.B8G8R8A8_UNORM
      · simp [if_pos hfmt]
      · by_cases hsk : env.surfaceOk = false
        · simp [if_neg hfmt, if_pos hsk]
        · simp only [if_neg hfmt, if_neg hsk]
          exact renderPresent_preserves env s ii _

theorem renderAcquire_preserves (env : RenderEnv) (s : State) (fi : Nat) :
    ((renderAcquire env s fi).2.1).images = s.images ∧
    ((renderAcquire env s fi).2.1).image_views = s.image_views ∧
    ((renderAcquire env s fi).2.1).resize_event = s.resize_event := by
  unfold renderAcquire
  rcases env.acquire with ⟨ii, subopt⟩ | e
  · cases subopt
    · simpa using renderDraw_preserves env s fi ii
    · simpa using renderDraw_preserves env { s with recreate_swapchain := true } fi ii
  · cases e <;> exact ⟨rfl, rfl, rfl⟩

theorem recreateLoop_err_partial (env : AllocEnv) (size : PhysicalWindowSize) :
    ∀ (fuel ctr : Nat) (outImages : List AttachmentImage) (outViews : List ImageViewM),
      (recreateLoop env size fuel ctr outImages outViews).err ≠ none →
      ∃ k, k < fuel ∧
        (recreateLoop env size fuel ctr outImages outViews).images.length
            = outImages.length + k ∧
        (recreateLoop env size fuel ctr outImages outViews).image_views.length
            = outViews.length + k := by
  intro fuel
  induction fuel with
  | zero =>
      intro ctr outImages outViews h
      simp [recreateLoop] at h
  | succ n ih =>
      intro ctr outImages outViews h
      by_cases hi : env.imageOk ctr
      · by_cases hv : env.viewOk ctr
        · have hrec := ih (ctr + 1) (outImages ++ [mkImage size ctr])
            (outViews ++ [{ image := mkImage size ctr }])
          simp only [recreateLoop, attachmentImageNew, imageViewNewDefault, hi, hv,
            if_true] at h ⊢
          obtain ⟨k, hk, h1, h2⟩ := hrec h
          refine ⟨k + 1, by omega, ?_, ?_⟩
          · rw [h1]; simp; omega
          · rw [h2]; simp; omega
        · simp only [recreateLoop, attachmentImageNew, imageViewNewDefault, hi, hv,
            if_true, if_false]
          exact ⟨0, by omega, rfl, rfl⟩
      · simp only [recreateLoop, attachmentImageNew, hi, if_false]
        exact ⟨0, by omega, rfl, rfl⟩

/-! Claim theorems. -/

/-- C5: for every size (W,H) at which `recreate_size_dependent_resources`
succeeds, it allocates exactly N=3 new images, each with dimensions (W,H)
and the fixed 32-bit BGRA unsigned-normalized format, plus exactly one
matching default view per image; the handles are three fresh consecutive
allocations. -/
theorem recreate_allocates_exact_triple (env : AllocEnv)
    (size : PhysicalWindowSize) (ctr : Nat)
    (h : (recreate_size_dependent_resources env size ctr [] []).err = none) :
    (recreate_size_dependent_resources env size ctr [] []).images.length = 3 ∧
    (∀ img ∈ (recreate_size_dependent_resources env size ctr [] []).images,
        img.width = size.width ∧ img.height = size.height ∧
        img.format = Format.B8G8R8A8_UNORM) ∧
    (recreate_size_dependent_resources env size ctr [] []).image_views.map
        ImageViewM.image
      = (recreate_size_dependent_resources env size ctr [] []).images ∧
    (recreate_size_dependent_resources env size ctr [] []).images.map
        AttachmentImage.handle = [ctr, ctr + 1, ctr + 2] := by
  obtain ⟨h1, h2, _⟩ := recreateLoop_ok env size FRAMES_IN_FLIGHT ctr [] [] h
  simp only [recreate_size_dependent_resources]
  rw [h1, h2]
  refine ⟨?_, ?_, ?_, ?_⟩
  · simp [freshImages_length, FRAMES_IN_FLIGHT]
  · intro img hmem
    simp only [List.nil_append] at hmem
    exact freshImages_mem size FRAMES_IN_FLIGHT ctr img hmem
  · rw [List.nil_append, List.nil_append, List.map_map]
    have hcomp : (ImageViewM.image ∘ fun i => ({ image := i } : ImageViewM)) = id := rfl
    rw [hcomp, List.map_id]
  · simpa [FRAMES_IN_FLIGHT] using freshImages_handles size ctr

def allocAllEnv : AllocEnv := ⟨fun _ => true, fun _ => true⟩

def size800 : PhysicalWindowSize := ⟨800, 600⟩

/-- Witness for C5 at a concrete size. -/
theorem recreate_allocates_exact_triple_witness :
    (recreate_size_dependent_resources allocAllEnv size800 0 [] []).images.length = 3 ∧
    (recreate_size_dependent_resources allocAllEnv size800 0 [] []).images.map
        AttachmentImage.handle = [0, 1, 2] :=
  ⟨(recreate_allocates_exact_triple allocAllEnv size800 0 (by decide)).1,
   (recreate_allocates_exact_triple allocAllEnv size800 0 (by decide)).2.2.2⟩

/-- An allocator that succeeds for the first image and fails at the second. -/
def envFailSecondImage : AllocEnv := ⟨fun n => n == 0, fun _ => true⟩

/-- C2 counterexample: when the second image allocation fails, the function
returns an error but the caller-supplied output containers end up holding one
image/view pair — fewer than N=3 — so a partial set is left in the output
containers. -/
theorem recreate_partial_output_counterexample :
    (recreate_size_dependent_resources envFailSecondImage size800 0 [] []).err
        = some PlatformError.imageAllocationFailed ∧
    (recreate_size_dependent_resources envFailSecondImage size800 0 [] []).images.length
        = 1 ∧
    (recreate_size_dependent_resources envFailSecondImage size800 0 [] []).image_views.length
        = 1 ∧
    ¬((recreate_size_dependent_resources envFailSecondImage size800 0 [] []).images.length
        = 3) := by
  decide

/-- C2 amended: on the first failure `recreate_size_dependent_resources`
returns that error at once, leaving the pairs pushed before the failure
(fewer than N, images and views paired) in the caller-supplied output
containers; `render` installs a recreated set into the surface's stored
containers only when recreation fully succeeds, so on failure the previous
resource set remains in place and the surface never observes a partial set. -/
theorem recreate_failure_keeps_previous_set (env : RenderEnv) (s : State)
    (sz : PhysicalWindowSize) (e : PlatformError)
    (hs : s.resize_event = some sz)
    (hf : (recreate_size_dependent_resources env.alloc sz s.alloc_ctr [] []).err
        = some e) :
    (render env s).1 = RenderResult.err e ∧
    (render env s).2.1.images = s.images ∧
    (render env s).2.1.image_views = s.image_views ∧
    (recreate_size_dependent_resources env.alloc sz s.alloc_ctr [] []).images.length
        < FRAMES_IN_FLIGHT ∧
    (recreate_size_dependent_resources env.alloc sz s.alloc_ctr [] []).images.length
        = (recreate_size_dependent_resources env.alloc sz s.alloc_ctr [] []).image_views.length := by
  obtain ⟨k, hk, h1, h2⟩ :=
    recreateLoop_err_partial env.alloc sz FRAMES_IN_FLIGHT s.alloc_ctr [] []
      (by simp only [recreate_size_dependent_resources] at hf; simp [hf])
  refine ⟨?_, ?_, ?_, ?_, ?_⟩
  · simp only [render, resize_event, hs, hf]
  · simp only [render, resize_event, hs, hf]
  · simp only [render, resize_event, hs, hf]
  · simp only [recreate_size_dependent_resources, List.length_nil] at h1 ⊢
    omega
  · simp only [recreate_size_dependent_resources, List.length_nil] at h1 h2 ⊢
    omega

/-- Witness for C2's amended claim: a failing recreation inside `render`
returns the error and leaves the previously installed images untouched. -/
theorem recreate_failure_keeps_previous_set_witness :
    (render ⟨envFailSecondImage, AcquireResult.ok 0 false, true, false, none⟩
        { resize_event := some size800, recreate_swapchain := false,
          previous_frame_end := some GpuFutureM.now, frame_index := none,
          images := [mkImage ⟨4, 4⟩ 0], image_views := [{ image := mkImage ⟨4, 4⟩ 0 }],
          alloc_ctr := 0 }).1 = RenderResult.err PlatformError.imageAllocationFailed ∧
    (render ⟨envFailSecondImage, AcquireResult.ok 0 false, true, false, none⟩
        { resize_event := some size800, recreate_swapchain := false,
          previous_frame_end := some GpuFutureM.now, frame_index := none,
          images := [mkImage ⟨4, 4⟩ 0], image_views := [{ image := mkImage ⟨4, 4⟩ 0 }],
          alloc_ctr := 0 }).2.1.images = [mkImage ⟨4, 4⟩ 0] :=
  ⟨(recreate_failure_keeps_previous_set _ _ size800
      PlatformError.imageAllocationFailed rfl (by decide)).1,
   (recreate_failure_keeps_previous_set _ _ size800
      PlatformError.imageAllocationFailed rfl (by decide)).2.1⟩

/-- C4: resize notifications are coalesced: after two notifications with no
intervening render, the pending slot holds only the second size, and the
next successful render consumes (clears) it and recreates the resource set
at exactly that latest size. -/
theorem resize_notifications_coalesce (env : RenderEnv) (s : State)
    (sz1 sz2 : PhysicalWindowSize)
    (h : (recreate_size_dependent_resources env.alloc sz2 s.alloc_ctr [] []).err
        = none) :
    (resize_event (resize_event s sz1) sz2).resize_event = some sz2 ∧
    (render env (resize_event (resize_event s sz1) sz2)).2.1.resize_event = none ∧
    (render env (resize_event (resize_event s sz1) sz2)).2.1.images.length
        = FRAMES_IN_FLIGHT ∧
    ∀ img ∈ (render env (resize_event (resize_event s sz1) sz2)).2.1.images,
      img.width = sz2.width ∧ img.height = sz2.height ∧
      img.format = Format.B8G8R8A8_UNORM := by
  obtain ⟨h1, h2, _⟩ := recreateLoop_ok env.alloc sz2 FRAMES_IN_FLIGHT s.alloc_ctr [] [] h
  refine ⟨rfl, ?_, ?_, ?_⟩
  · simp only [render, resize_event, h]
    rw [(renderAcquire_preserves env _ _).2.2]
  · simp only [render, resize_event, h]
    rw [(renderAcquire_preserves env _ _).1]
    simp only [recreate_size_dependent_resources]
    simp [h1, freshImages_length]
  · intro img hmem
    simp only [render, resize_event, h] at hmem
    rw [(renderAcquire_preserves env _ _).1] at hmem
    simp only [recreate_size_dependent_resources] at hmem
    simp only [h1, List.nil_append] at hmem
    exact freshImages_mem sz2 FRAMES_IN_FLIGHT s.alloc_ctr img hmem

/-- Witness for C4: notify 800×600 then 1024×768, then render — the active
images are 1024×768, not 800×600. -/
theorem resize_notifications_coalesce_witness :
    (render ⟨allocAllEnv, AcquireResult.ok 0 false, true, false, none⟩
        (resize_event (resize_event
          { resize_event := none, recreate_swapchain := false,
            previous_frame_end := some GpuFutureM.now, frame_index := none,
            images := [], image_views := [], alloc_ctr := 0 }
          ⟨800, 600⟩) ⟨1024, 768⟩)).2.1.images.length = FRAMES_IN_FLIGHT ∧
    ∀ img ∈ (render ⟨allocAllEnv, AcquireResult.ok 0 false, true, false, none⟩
        (resize_event (resize_event
          { resize_event := none, recreate_swapchain := false,
            previous_frame_end := some GpuFutureM.now, frame_index := none,
            images := [], image_views := [], alloc_ctr := 0 }
          ⟨800, 600⟩) ⟨1024, 768⟩)).2.1.images,
      img.width = 1024 ∧ img.height = 768 ∧ img.format = Format.B8G8R8A8_UNORM :=
  ⟨(resize_notifications_coalesce _ _ ⟨800, 600⟩ ⟨1024, 768⟩ (by decide)).2.2.1,
   (resize_notifications_coalesce _ _ ⟨800, 600⟩ ⟨1024, 768⟩ (by decide)).2.2.2⟩

/-- The state `from_resources` builds for an always-succeeding allocator at
800×600 (handles 0,1,2; construction leaves the construction size pending). -/
def initialState : State :=
  { resize_event := some size800, recreate_swapchain := false,
    previous_frame_end := some GpuFutureM.now, frame_index := none,
    images := freshImages size800 0 3,
    image_views := (freshImages size800 0 3).map (fun i => { image := i }),
    alloc_ctr := 3 }

/-- A render environment in which every native operation succeeds:
the acquire yields image 0 and is not suboptimal, Skia accepts the render
target, and the present flush succeeds. -/
def envAllOk : RenderEnv :=
  ⟨allocAllEnv, AcquireResult.ok 0 false, true, false, none⟩

/-- C1 (code bug): `render` reads `self.frame_index` through
`.clone().take()` — which takes from a clone and leaves the stored cell
untouched — and contains no statement that writes `self.frame_index`, so
across two consecutive fully successful render calls on a freshly
constructed surface the frame index used for drawing is 0 both times and
the stored index is still `None` afterwards, instead of cycling
0, 1, ..., N-1, 0, ... -/
theorem frame_index_never_advances :
    from_resources allocAllEnv size800 = Except.ok initialState ∧
    (render envAllOk initialState).1 = RenderResult.ok ∧
    (render envAllOk initialState).2.2.usedFrameIndex = some 0 ∧
    (render envAllOk (render envAllOk initialState).2.1).1 = RenderResult.ok ∧
    (render envAllOk (render envAllOk initialState).2.1).2.2.usedFrameIndex = some 0 ∧
    (render envAllOk (render envAllOk initialState).2.1).2.1.frame_index = none :=
  ⟨rfl, rfl, rfl, rfl, rfl, rfl⟩

/-- C9: calling the current-frame-index accessor — and therefore the
current-offscreen-image handle accessor, which goes through it — on a
surface on which no render call has occurred panics with the fatal usage
message instead of returning an index. -/
theorem accessor_before_first_render_panics (env : AllocEnv)
    (size : PhysicalWindowSize) (s : State)
    (h : from_resources env size = Except.ok s) :
    current_vulkan_frame_index s
        = AccessorResult.panic "Vulkan frame index requested before first render" ∧
    current_raw_offscreen_vulkan_image_handle s
        = AccessorResult.panic "Vulkan frame index requested before first render" := by
  have hfi : s.frame_index = none := by
    simp only [from_resources] at h
    rcases he : (recreate_size_dependent_resources env size 0 [] []).err with _ | e
    · simp only [he] at h
      cases h
      rfl
    · simp only [he] at h
      exact Except.noConfusion h
  unfold current_raw_offscreen_vulkan_image_handle current_vulkan_frame_index
  rw [hfi]
  exact ⟨rfl, rfl⟩

/-- Witness for C9 on the concrete freshly-constructed surface. -/
theorem accessor_before_first_render_panics_witness :
    current_vulkan_frame_index initialState
        = AccessorResult.panic "Vulkan frame index requested before first render" ∧
    current_raw_offscreen_vulkan_image_handle initialState
        = AccessorResult.panic "Vulkan frame index requested before first render" :=
  accessor_before_first_render_panics allocAllEnv size800 initialState rfl

/-- C3: an out-of-date acquire failure sets the recreate-swapchain flag and
makes `render` return success immediately; a suboptimal acquire also sets
the flag but the call still proceeds with the current frame, drawing the
current image and que(u)ing the acquired image index for present. -/
theorem acquire_out_of_date_and_suboptimal :
    (∀ (env : RenderEnv) (s : State),
        s.resize_event = none →
        env.acquire = AcquireResult.error VkError.outOfDate →
        (render env s).1 = RenderResult.ok ∧
        (render env s).2.1.recreate_swapchain = true ∧
        (render env s).2.2 = emptyTrace) ∧
    (∀ (env : RenderEnv) (s : State) (idx : Nat) (v : ImageViewM)
        (prev : GpuFutureM),
        s.resize_event = none →
        env.acquire = AcquireResult.ok idx true →
        (s.images[s.frame_index.getD 0]?).isSome →
        s.image_views[s.frame_index.getD 0]? = some v →
        v.image.format = Format.B8G8R8A8_UNORM →
        env.surfaceOk = true →
        s.previous_frame_end = some prev →
        env.present = none →
        (render env s).1 = RenderResult.ok ∧
        (render env s).2.1.recreate_swapchain = true ∧
        (render env s).2.2.usedFrameIndex = some (s.frame_index.getD 0) ∧
        (render env s).2.2.presentedImageIndex = some idx) := by
  constructor
  · intro env s h1 h2
    simp [render, renderAcquire, h1, h2]
  · intro env s idx v prev h1 h2 h3 h4 h5 h6 h7 h8
    obtain ⟨img, himg⟩ := Option.isSome_iff_exists.mp h3
    simp [render, renderAcquire, renderDraw, renderPresent, h1, h2, himg, h4, h5,
      h6, h7, h8]

/-- Witness for C3: both acquire outcomes at a concrete ready state. -/
theorem acquire_out_of_date_and_suboptimal_witness :
    ((render ⟨allocAllEnv, AcquireResult.error VkError.outOfDate, true, false, none⟩
        { initialState with resize_event := none }).1 = RenderResult.ok ∧
     (render ⟨allocAllEnv, AcquireResult.error VkError.outOfDate, true, false, none⟩
        { initialState with resize_event := none }).2.1.recreate_swapchain = true) ∧
    ((render ⟨allocAllEnv, AcquireResult.ok 2 true, true, false, none⟩
        { initialState with resize_event := none }).1 = RenderResult.ok ∧
     (render ⟨allocAllEnv, AcquireResult.ok 2 true, true, false, none⟩
        { initialState with resize_event := none }).2.1.recreate_swapchain = true ∧
     (render ⟨allocAllEnv, AcquireResult.ok 2 true, true, false, none⟩
        { initialState with resize_event := none }).2.2.presentedImageIndex = some 2) :=
  ⟨⟨(acquire_out_of_date_and_suboptimal.1 _ _ rfl rfl).1,
    (acquire_out_of_date_and_suboptimal.1 _ _ rfl rfl).2.1⟩,
   ⟨(acquire_out_of_date_and_suboptimal.2 _ _ 2 { image := mkImage size800 0 }
       GpuFutureM.now rfl rfl (by decide) (by decide) rfl rfl rfl rfl).1,
    (acquire_out_of_date_and_suboptimal.2 _ _ 2 { image := mkImage size800 0 }
       GpuFutureM.now rfl rfl (by decide) (by decide) rfl rfl rfl rfl).2.1,
    (acquire_out_of_date_and_suboptimal.2 _ _ 2 { image := mkImage size800 0 }
       GpuFutureM.now rfl rfl (by decide) (by decide) rfl rfl rfl rfl).2.2.2⟩⟩

/-- C8: outcome handling of the queued present at the end of `render`:
out-of-date → recreate flag set, no-op future stored, success returned;
any other flush failure → no-op future stored, error returned, resources
kept (surface remains usable); success → the new completion future is
stored for the next frame. -/
theorem present_outcome_handling :
    (∀ (env : RenderEnv) (s : State) (idx : Nat) (subopt : Bool)
        (v : ImageViewM) (prev : GpuFutureM),
        s.resize_event = none →
        env.acquire = AcquireResult.ok idx subopt →
        (s.images[s.frame_index.getD 0]?).isSome →
        s.image_views[s.frame_index.getD 0]? = some v →
        v.image.format = Format.B8G8R8A8_UNORM →
        env.surfaceOk = true →
        s.previous_frame_end = some prev →
        env.present = some VkError.outOfDate →
        (render env s).1 = RenderResult.ok ∧
        (render env s).2.1.recreate_swapchain = true ∧
        (render env s).2.1.previous_frame_end = some GpuFutureM.now) ∧
    (∀ (env : RenderEnv) (s : State) (idx : Nat) (subopt : Bool)
        (v : ImageViewM) (prev : GpuFutureM),
        s.resize_event = none →
        env.acquire = AcquireResult.ok idx subopt →
        (s.images[s.frame_index.getD 0]?).isSome →
        s.image_views[s.frame_index.getD 0]? = some v →
        v.image.format = Format.B8G8R8A8_UNORM →
        env.surfaceOk = true →
        s.previous_frame_end = some prev →
        env.present = some VkError.other →
        (render env s).1 = RenderResult.err PlatformError.presentFailed ∧
        (render env s).2.1.previous_frame_end = some GpuFutureM.now ∧
        (render env s).2.1.images = s.images ∧
        (render env s).2.1.image_views = s.image_views) ∧
    (∀ (env : RenderEnv) (s : State) (idx : Nat) (subopt : Bool)
        (v : ImageViewM) (prev : GpuFutureM),
        s.resize_event = none →
        env.acquire = AcquireResult.ok idx subopt →
        (s.images[s.frame_index.getD 0]?).isSome →
        s.image_views[s.frame_index.getD 0]? = some v →
        v.image.format = Format.B8G8R8A8_UNORM →
        env.surfaceOk = true →
        s.previous_frame_end = some prev →
        env.present = none →
        (render env s).1 = RenderResult.ok ∧
        (render env s).2.1.previous_frame_end
            = some (GpuFutureM.presentFence prev idx)) := by
  refine ⟨?_, ?_, ?_⟩ <;>
  · intro env s idx subopt v prev h1 h2 h3 h4 h5 h6 h7 h8
    obtain ⟨img, himg⟩ := Option.isSome_iff_exists.mp h3
    cases subopt <;>
      simp [render, renderAcquire, renderDraw, renderPresent, h1, h2, himg, h4,
        h5, h6, h7, h8]

/-- Witness for C8: the three present outcomes at a concrete ready state. -/
theorem present_outcome_handling_witness :
    ((render ⟨allocAllEnv, AcquireResult.ok 0 false, true, false, some VkError.outOfDate⟩
        { initialState with resize_event := none }).1 = RenderResult.ok ∧
     (render ⟨allocAllEnv, AcquireResult.ok 0 false, true, false, some VkError.outOfDate⟩
        { initialState with resize_event := none }).2.1.previous_frame_end
        = some GpuFutureM.now) ∧
    ((render ⟨allocAllEnv, AcquireResult.ok 0 false, true, false, some VkError.other⟩
        { initialState with resize_event := none }).1
        = RenderResult.err PlatformError.presentFailed ∧
     (render ⟨allocAllEnv, AcquireResult.ok 0 false, true, false, some VkError.other⟩
        { initialState with resize_event := none }).2.1.previous_frame_end
        = some GpuFutureM.now) ∧
    (render ⟨allocAllEnv, AcquireResult.ok 0 false, true, false, none⟩
        { initialState with resize_event := none }).2.1.previous_frame_end
        = some (GpuFutureM.presentFence GpuFutureM.now 0) :=
  ⟨⟨(present_outcome_handling.1 _ _ 0 false { image := mkImage size800 0 }
       GpuFutureM.now rfl rfl (by decide) (by decide) rfl rfl rfl rfl).1,
    (present_outcome_handling.1 _ _ 0 false { image := mkImage size800 0 }
       GpuFutureM.now rfl rfl (by decide) (by decide) rfl rfl rfl rfl).2.2⟩,
   ⟨(present_outcome_handling.2.1 _ _ 0 false { image := mkImage size800 0 }
       GpuFutureM.now rfl rfl (by decide) (by decide) rfl rfl rfl rfl).1,
    (present_outcome_handling.2.1 _ _ 0 false { image := mkImage size800 0 }
       GpuFutureM.now rfl rfl (by decide) (by decide) rfl rfl rfl rfl).2.1⟩,
   (present_outcome_handling.2.2 _ _ 0 false { image := mkImage size800 0 }
       GpuFutureM.now rfl rfl (by decide) (by decide) rfl rfl rfl rfl).2⟩

end VulkanSurface

namespace VulkanSurface

theorem minByRankStep_cases (best y : PhysicalDeviceM × Nat) :
    minByRankStep best y = best ∨ minByRankStep best y = y := by
  unfold minByRankStep
  split
  · right; rfl
  · left; rfl

theorem minByRankStep_le_left (best y : PhysicalDeviceM × Nat) :
    deviceRank (minByRankStep best y).1.deviceType ≤ deviceRank best.1.deviceType := by
  unfold minByRankStep
  split
  · omega
  · exact Nat.le_refl _

theorem minByRankStep_le_right (best y : PhysicalDeviceM × Nat) :
    deviceRank (minByRankStep best y).1.deviceType ≤ deviceRank y.1.deviceType := by
  unfold minByRankStep
  split
  · exact Nat.le_refl _
  · omega

theorem foldl_minByRankStep_mem :
    ∀ (xs : List (PhysicalDeviceM × Nat)) (x : PhysicalDeviceM × Nat),
      xs.foldl minByRankStep x = x ∨ xs.foldl minByRankStep x ∈ xs := by
  intro xs
  induction xs with
  | nil => intro x; left; rfl
  | cons y ys ih =>
      intro x
      rcases ih (minByRankStep x y) with h | h
      · rw [List.foldl_cons, h]
        rcases minByRankStep_cases x y with h2 | h2
        · left; exact h2
        · right; rw [h2]; exact List.mem_cons_self y ys
      · right
        rw [List.foldl_cons]
        exact List.mem_cons_of_mem y h

theorem foldl_minByRankStep_le :
    ∀ (xs : List (PhysicalDeviceM × Nat)) (x : PhysicalDeviceM × Nat),
      deviceRank (xs.foldl minByRankStep x).1.deviceType
          ≤ deviceRank x.1.deviceType ∧
      ∀ y ∈ xs, deviceRank (xs.foldl minByRankStep x).1.deviceType
          ≤ deviceRank y.1.deviceType := by
  intro xs
  induction xs with
  | nil =>
      intro x
      exact ⟨Nat.le_refl _, by intro y hy; simp at hy⟩
  | cons z zs ih =>
      intro x
      obtain ⟨hle, hall⟩ := ih (minByRankStep x z)
      rw [List.foldl_cons]
      refine ⟨Nat.le_trans hle (minByRankStep_le_left x z), ?_⟩
      intro y hy
      rcases List.mem_cons.mp hy with h | h
      · subst h
        exact Nat.le_trans hle (minByRankStep_le_right x y)
      · exact hall y h

def discreteDev : PhysicalDeviceM :=
  ⟨PhysicalDeviceType.DiscreteGpu, [], [⟨true⟩]⟩

def integratedDev : PhysicalDeviceM :=
  ⟨PhysicalDeviceType.IntegratedGpu, [], [⟨true⟩]⟩

/-- C6: device selection returns a survivor (required extensions supported,
a graphics-capable queue family paired with it) whose device-class rank is
minimal over all survivors, under the rank discrete=0, integrated=1,
virtual=2, software=3, other=4, unknown=5; in particular, with one discrete
and one integrated graphics-capable device (in either order), the discrete
one is selected. -/
theorem device_selection_prefers_min_rank :
    (∀ (required : List String) (devices : List PhysicalDeviceM)
        (d : PhysicalDeviceM) (i : Nat),
        selectPhysicalDevice required devices = Except.ok (d, i) →
        (d, i) ∈ survivors required devices ∧
        ∀ q ∈ survivors required devices,
          deviceRank d.deviceType ≤ deviceRank q.1.deviceType) ∧
    (deviceRank PhysicalDeviceType.DiscreteGpu = 0 ∧
     deviceRank PhysicalDeviceType.IntegratedGpu = 1 ∧
     deviceRank PhysicalDeviceType.VirtualGpu = 2 ∧
     deviceRank PhysicalDeviceType.Cpu = 3 ∧
     deviceRank PhysicalDeviceType.Other = 4 ∧
     deviceRank PhysicalDeviceType.unknown = 5) ∧
    (selectPhysicalDevice [] [integratedDev, discreteDev]
        = Except.ok (discreteDev, 0) ∧
     selectPhysicalDevice [] [discreteDev, integratedDev]
        = Except.ok (discreteDev, 0)) := by
  refine ⟨?_, ⟨rfl, rfl, rfl, rfl, rfl, rfl⟩, rfl, rfl⟩
  intro required devices d i hsel
  unfold selectPhysicalDevice at hsel
  rcases hm : minByRank (survivors required devices) with _ | r
  · rw [hm] at hsel
    exact Except.noConfusion hsel
  · rw [hm] at hsel
    cases hsel
    unfold minByRank at hm
    rcases hs : survivors required devices with _ | ⟨x, xs⟩
    · rw [hs] at hm
      exact Option.noConfusion hm
    · rw [hs] at hm
      have hr : xs.foldl minByRankStep x = (d, i) := by
        injection hm
      constructor
      · rcases foldl_minByRankStep_mem xs x with h | h
        · rw [hr] at h
          rw [← h]
          exact List.mem_cons_self (d, i) xs
        · rw [hr] at h
          exact List.mem_cons_of_mem x h
      · intro q hq
        obtain ⟨hle, hall⟩ := foldl_minByRankStep_le xs x
        rw [hr] at hle hall
        rcases List.mem_cons.mp hq with h | h
        · subst h
          exact hle
        · exact hall q h

/-- Witness for C6 on a concrete two-device enumeration. -/
theorem device_selection_prefers_min_rank_witness :
    (discreteDev, 0) ∈ survivors [] [integratedDev, discreteDev] ∧
    ∀ q ∈ survivors [] [integratedDev, discreteDev],
      deviceRank discreteDev.deviceType ≤ deviceRank q.1.deviceType :=
  device_selection_prefers_min_rank.1 [] [integratedDev, discreteDev]
    discreteDev 0 rfl

theorem findGraphicsFamilyIndex_eq_none_iff :
    ∀ (qs : List QueueFamily),
      findGraphicsFamilyIndex qs = none ↔ ∀ q ∈ qs, q.graphics = false := by
  intro qs
  induction qs with
  | nil => simp [findGraphicsFamilyIndex]
  | cons q qs ih =>
      by_cases hg : q.graphics
      · simp [findGraphicsFamilyIndex, hg]
      · have hg2 : q.graphics = false := by simpa using hg
        simp [findGraphicsFamilyIndex, hg2, ih]

/-- C7: the selection fails with the no-suitable-device error exactly when
no enumerated device both supports the required extensions and has a
queue family whose flags include graphics. -/
theorem no_suitable_device_iff (required : List String)
    (devices : List PhysicalDeviceM) :
    selectPhysicalDevice required devices
        = Except.error PlatformError.noSuitableDevice ↔
    ∀ p ∈ devices, ¬(supportsExtensions required p = true ∧
        ∃ q ∈ p.queueFamilies, q.graphics = true) := by
  have hstep1 : selectPhysicalDevice required devices
      = Except.error PlatformError.noSuitableDevice ↔
      survivors required devices = [] := by
    unfold selectPhysicalDevice minByRank
    rcases hs : survivors required devices with _ | ⟨x, xs⟩
    · simp
    · simp
  rw [hstep1]
  unfold survivors
  rw [List.filterMap_eq_nil_iff]
  constructor
  · intro h p hp
    rintro ⟨hsup, q, hq, hg⟩
    have hmem : p ∈ devices.filter (supportsExtensions required) :=
      List.mem_filter.mpr ⟨hp, hsup⟩
    have hnone := h p hmem
    rw [Option.map_eq_none'] at hnone
    have := (findGraphicsFamilyIndex_eq_none_iff p.queueFamilies).mp hnone q hq
    rw [hg] at this
    exact Bool.noConfusion this
  · intro h p hp
    obtain ⟨hpd, hsup⟩ := List.mem_filter.mp hp
    rw [Option.map_eq_none']
    rw [findGraphicsFamilyIndex_eq_none_iff]
    intro q hq
    by_contra hg
    rw [Bool.not_eq_false] at hg
    exact h p hpd ⟨hsup, q, hq, hg⟩

/-- Witness for C7: a single software device with no graphics queue family
yields the no-suitable-device error. -/
theorem no_suitable_device_iff_witness :
    selectPhysicalDevice []
        [(⟨PhysicalDeviceType.Cpu, [], [⟨false⟩]⟩ : PhysicalDeviceM)]
        = Except.error PlatformError.noSuitableDevice :=
  (no_suitable_device_iff [] [⟨PhysicalDeviceType.Cpu, [], [⟨false⟩]⟩]).mpr
    (by decide)

end VulkanSurface

namespace Signals

/-- C10: `Signal::emit` with no handler installed is a no-op; with a handler
installed it invokes the handler exactly once with the given argument and
reinstalls that same handler afterwards; and if the handler installs a new
handler on the same signal during its own invocation, `emit` panics through
its assertion instead of keeping the new handler. -/
theorem signal_emit_contract :
    (∀ (H A : Type) (action : H → A → Option H) (s : Signal H) (a : A),
        s.handler = none → emit action s a = EmitResult.ok s []) ∧
    (∀ (H A : Type) (action : H → A → Option H) (h : H) (a : A),
        action h a = none →
        emit action { handler := some h } a
            = EmitResult.ok { handler := some h } [(h, a)]) ∧
    (∀ (H A : Type) (action : H → A → Option H) (h f : H) (a : A),
        action h a = some f →
        emit action { handler := some h } a
            = EmitResult.panic "Signal Handler set while emitted") := by
  refine ⟨?_, ?_, ?_⟩
  · intro H A action s a hs
    rcases s with ⟨hd⟩
    cases hd
    · rfl
    · exact Option.noConfusion hs
  · intro H A action h a hact
    simp [emit, hact]
  · intro H A action h f a hact
    simp [emit, hact]

/-- Witness for C10 with natural-number handlers and arguments. -/
theorem signal_emit_contract_witness :
    emit (fun (_ : Nat) (_ : Nat) => (none : Option Nat)) { handler := none } 5
        = EmitResult.ok { handler := none } [] ∧
    emit (fun (_ : Nat) (_ : Nat) => (none : Option Nat)) { handler := some 9 } 5
        = EmitResult.ok { handler := some 9 } [(9, 5)] ∧
    emit (fun (_ : Nat) (_ : Nat) => (some 7 : Option Nat)) { handler := some 9 } 5
        = EmitResult.panic "Signal Handler set while emitted" :=
  ⟨signal_emit_contract.1 Nat Nat _ { handler := none } 5 rfl,
   signal_emit_contract.2.1 Nat Nat _ 9 5 rfl,
   signal_emit_contract.2.2 Nat Nat _ 9 7 5 rfl⟩

end Signals
